import Mathlib

/-!
Shallow embedding of the drltrace client (`clients/drltrace/drltrace.c`),
a library-call tracer built on the DynamoRIO platform.  The platform
services that drltrace consumes (address-to-module lookup, export-table
iteration, fault-guarded execution, hook install/remove) are modelled as
explicit parameters and as an explicit hook multiset plus an action trace,
so that the client's own control flow can be stated and proved about.

Addresses are `Nat`, with `0` playing the role of the C `NULL` pointer.
A fault-guarded computation (`DR_TRY_EXCEPT`) is modelled by an `Option`
result: `none` is the EXCEPT path.
-/

namespace Drltrace

/-- Subset of the platform's `module_data_t` visible to drltrace: the module
base (`start`) and the preferred display name (`dr_module_preferred_name`,
which may be NULL, hence `Option`). -/
structure ModuleData where
  start : Nat
  name : Option String
deriving DecidableEq

/-- One entry of a module's export table (`dr_symbol_export_t`): symbol name,
raw address, and the code / indirect-code markers. -/
structure SymbolExport where
  name : String
  addr : Nat
  is_code : Bool
  is_indirect_code : Bool
deriving DecidableEq

/-- A module as delivered to the load/unload events: base address, preferred
name, and the export table reachable through its handle. -/
structure ModuleInfo where
  start : Nat
  name : Option String
  exports : List SymbolExport
deriving DecidableEq

/-- Observable platform requests made while iterating a module's exports:
invoking an indirect-export trampoline, installing a hook
(`drwrap_wrap_ex(func, lib_entry, NULL, name, 0)`), removing a hook
(`drwrap_unwrap(func, lib_entry, NULL)`). -/
inductive Action where
  | invoke (addr : Nat)
  | wrap (func : Nat) (name : String)
  | unwrap (func : Nat)
deriving DecidableEq

/-- The fixed trace-line marker `STDERR_PREFIX` ("~~~~ ") from drltrace.c. -/
def stderrMarker : String := "~~~~ "

/-- The `modname` computed in `lib_entry`: `dr_lookup_module(func)` followed by
`dr_module_preferred_name` when a module was found, else NULL. -/
def modnameOf (lookup : Nat → Option ModuleData) (func : Nat) : Option String :=
  match lookup func with
  | some mod => mod.name
  | none => none

/-- The single line printed by `lib_entry`'s
`dr_fprintf(STDERR, "%s%s%s%s\n", STDERR_PREFIX, modname?, "!"?, name)`:
marker, then module name and "!" (both only when `modname` is non-NULL),
then the function name and a newline. -/
def traceLine (lookup : Nat → Option ModuleData) (func : Nat) (name : String) : String :=
  let modname := modnameOf lookup func
  stderrMarker ++
    (match modname with | some m => m | none => "") ++
    (match modname with | some _ => "!" | none => "") ++
    name ++ "\n"

/-- The `lib_entry` wrap callback.  Inputs: the `-only_from_app` option, the
captured executable base `exe_start`, the platform's address-to-module lookup
`dr_lookup_module`, the result of the fault-guarded
`drwrap_get_retaddr` read (`none` when the read faulted or returned NULL),
the hook-local export `name`, and the wrapped function address `func`.
Output: the list of trace lines printed to STDERR for this call
(`[]` when the call is suppressed). -/
def lib_entry (only_from_app : Bool) (exe_start : Nat)
    (lookup : Nat → Option ModuleData) (retaddr : Option Nat)
    (name : String) (func : Nat) : List String :=
  if only_from_app then
    match retaddr with
    | some ra =>
        match lookup ra with
        | some mod =>
            if mod.start = exe_start then [traceLine lookup func name] else []
        | none => [traceLine lookup func name]
    | none => []
  else [traceLine lookup func name]

/-- One export-table entry of `iterate_exports`'s loop body, up to the
`if (func != NULL)` test: the resolved address `func` (0 = NULL when the
symbol is neither code nor resolvable indirect code, or when the guarded
trampoline invocation `indir` faulted), plus the invoke action when the
indirect branch ran.  Models the LINUX build, where the
`is_indirect_code` branch is compiled in. -/
def resolveExport (indir : Nat → Option Nat) (sym : SymbolExport) : Nat × List Action :=
  if sym.is_code then (sym.addr, [])
  else if sym.is_indirect_code then ((indir sym.addr).getD 0, [Action.invoke sym.addr])
  else (0, [])

/-- The rest of `iterate_exports`'s loop body: when `func != NULL`, either
install (`add`) or remove a hook at `func`.  The hook table is a multiset of
wrapped addresses (`drwrap_unwrap` is keyed on the address and the `lib_entry`
callback, which is the same for every hook drltrace installs). -/
def processExport (indir : Nat → Option Nat) (add : Bool) (st : Multiset Nat)
    (sym : SymbolExport) : Multiset Nat × List Action :=
  let r := resolveExport indir sym
  if r.1 ≠ 0 then
    if add then (r.1 ::ₘ st, r.2 ++ [Action.wrap r.1 sym.name])
    else (st.erase r.1, r.2 ++ [Action.unwrap r.1])
  else (st, r.2)

/-- `iterate_exports(info, add)`: fold the loop body over the export table in
order, returning the final hook table and the emitted platform requests. -/
def iterate_exports (indir : Nat → Option Nat) (syms : List SymbolExport)
    (add : Bool) (st : Multiset Nat) : Multiset Nat × List Action :=
  match syms with
  | [] => (st, [])
  | s :: rest =>
      let p := processExport indir add st s
      let q := iterate_exports indir rest add p.1
      (q.1, p.2 ++ q.2)

/-- `event_module_load`: hook the module's exports unless its base is the main
executable's base. -/
def event_module_load (exe_start : Nat) (indir : Nat → Option Nat)
    (info : ModuleInfo) (st : Multiset Nat) : Multiset Nat × List Action :=
  if info.start ≠ exe_start then iterate_exports indir info.exports true st
  else (st, [])

/-- `event_module_unload`: unhook the module's exports unless its base is the
main executable's base. -/
def event_module_unload (exe_start : Nat) (indir : Nat → Option Nat)
    (info : ModuleInfo) (st : Multiset Nat) : Multiset Nat × List Action :=
  if info.start ≠ exe_start then iterate_exports indir info.exports false st
  else (st, [])

/-- The client state touched by `options_init`: the three option fields, the
diagnostic lines printed to STDERR by `NOTIFY`, and the fatal usage-error
flag (see `usage_check`). -/
structure OptState where
  logdir : String
  only_from_app : Bool
  verbose : Nat
  stderrLog : List String
  usageError : Bool
deriving DecidableEq

/-- The zero-initialized static state at attach time. -/
def optStateInit : OptState :=
  { logdir := "", only_from_app := false, verbose := 0,
    stderrLog := [], usageError := false }

/-- The `NOTIFY(level, ...)` macro: print to STDERR when `verbose >= level`. -/
def notify (level : Nat) (msg : String) (st : OptState) : OptState :=
  if st.verbose ≥ level then { st with stderrLog := st.stderrLog ++ [msg] }
  else st

/-- Modelled from the spec: `USAGE_CHECK` comes from `clients/common/utils.h`,
which is not among the sources here.  Per the spec a failed check is a
configuration error, "fatal in strict/debug mode, best-effort-ignored in
release mode"; we record the failure in a fatal-in-strict-builds flag. -/
def usage_check (cond : Bool) (st : OptState) : OptState :=
  if cond then st else { st with usageError := true }

/-- `dr_sscanf(token, "%u", &verbose)`: parse the leading decimal digit run;
the scan succeeds (returns 1) iff at least one digit was consumed. -/
def dr_sscanf_u (s : String) : Option Nat :=
  let ds := s.toList.takeWhile Char.isDigit
  if ds.isEmpty then none
  else some (ds.foldl (fun n c => 10 * n + (c.toNat - 48)) 0)

/-- `options_init`'s token loop over the attach-time option string (already
split into tokens, as `dr_get_token` yields them).  `-logdir` and `-verbose`
consume one following token; a missing argument fails its `USAGE_CHECK` and
ends the loop (the C loop condition `s != NULL` is then false); an
unrecognized token is reported via `NOTIFY(0, ...)` and fails
`USAGE_CHECK(false, "invalid option")`, then the loop continues. -/
def options_init (tokens : List String) (st : OptState) : OptState :=
  match tokens with
  | [] => st
  | t :: rest =>
      if t = "-logdir" then
        match rest with
        | [] => usage_check false st
        | path :: rest2 => options_init rest2 { st with logdir := path }
      else if t = "-only_from_app" then
        options_init rest { st with only_from_app := true }
      else if t = "-verbose" then
        match rest with
        | [] => usage_check false st
        | numTok :: rest2 =>
            match dr_sscanf_u numTok with
            | some n => options_init rest2 { st with verbose := n }
            | none => options_init rest2 (usage_check false st)
      else
        options_init rest
          (usage_check false
            (notify 0 ("UNRECOGNIZED OPTION: \"" ++ t ++ "\"\n") st))

/-! ## Claims about the call interceptor (`lib_entry`) -/

/-- C2: for a module whose base equals the main executable's base, neither the
load event nor the unload event installs or removes any hook: the hook table
is unchanged and no platform request at all is issued. -/
theorem C2_main_executable_never_hooked (exe : Nat) (indir : Nat → Option Nat)
    (info : ModuleInfo) (st : Multiset Nat) (h : info.start = exe) :
    event_module_load exe indir info st = (st, []) ∧
    event_module_unload exe indir info st = (st, []) := by
  constructor <;> simp [event_module_load, event_module_unload, h]

theorem C2_main_executable_never_hooked_witness :
    event_module_load 4096 (fun _ => none)
      ⟨4096, some "app", [⟨"f", 5, true, false⟩]⟩ 0 = (0, []) ∧
    event_module_unload 4096 (fun _ => none)
      ⟨4096, some "app", [⟨"f", 5, true, false⟩]⟩ 0 = (0, []) :=
  C2_main_executable_never_hooked 4096 (fun _ => none)
    ⟨4096, some "app", [⟨"f", 5, true, false⟩]⟩ 0 rfl

/-- C5: with `only_from_app` unset, every intercepted call emits exactly one
trace line, whatever the return-address read and module lookups yield. -/
theorem C5_no_filter_one_line (exe : Nat) (lookup : Nat → Option ModuleData)
    (retaddr : Option Nat) (name : String) (func : Nat) :
    (lib_entry false exe lookup retaddr name func).length = 1 := rfl

/-- C10: with `only_from_app` set, a call whose guarded return-address read
succeeds but whose address-to-module lookup finds no owning module falls
through the filter and emits exactly one trace line. -/
theorem C10_no_module_admits_call (exe : Nat) (lookup : Nat → Option ModuleData)
    (ra : Nat) (name : String) (func : Nat) (h : lookup ra = none) :
    lib_entry true exe lookup (some ra) name func =
      [traceLine lookup func name] := by
  simp [lib_entry, h]

theorem C10_no_module_admits_call_witness :
    lib_entry true 4096 (fun _ => none) (some 100) "foo" 200 =
      [traceLine (fun _ => none) 200 "foo"] :=
  C10_no_module_admits_call 4096 (fun _ => none) 100 "foo" 200 rfl

/-- C1 (as stated) is false at this input: `only_from_app` is on, the guarded
return-address read succeeded (address 100) and the lookup finds no owning
module, yet the call is not suppressed — one trace line is emitted, not
zero. -/
theorem C1_counterexample :
    (lib_entry true 4096 (fun _ => none) (some 100) "foo" 200).length ≠ 0 := by
  decide

/-- C1 (amended): with `only_from_app` on, when the guarded return-address
read succeeds but the lookup finds no owning module, the call is admitted and
exactly one trace line is emitted (suppression happens only when a module
with a different base is found, or the read fails). -/
theorem C1_no_module_emits_one_line (exe : Nat) (lookup : Nat → Option ModuleData)
    (ra : Nat) (name : String) (func : Nat) (h : lookup ra = none) :
    (lib_entry true exe lookup (some ra) name func).length = 1 := by
  simp [lib_entry, h]

theorem C1_no_module_emits_one_line_witness :
    (lib_entry true 4096 (fun _ => none) (some 100) "foo" 200).length = 1 :=
  C1_no_module_emits_one_line 4096 (fun _ => none) 100 "foo" 200 rfl

/-- C4: with `only_from_app` set, a readable return address resolving to a
module based at the executable base yields one trace line; a readable return
address resolving to a module with a different base yields zero; a failed
guarded read yields zero. -/
theorem C4_origin_filter (exe : Nat) (lookup : Nat → Option ModuleData)
    (name : String) (func : Nat) :
    (∀ ra mod, lookup ra = some mod → mod.start = exe →
      (lib_entry true exe lookup (some ra) name func).length = 1) ∧
    (∀ ra mod, lookup ra = some mod → mod.start ≠ exe →
      (lib_entry true exe lookup (some ra) name func).length = 0) ∧
    (lib_entry true exe lookup none name func).length = 0 := by
  refine ⟨fun ra mod h1 h2 => ?_, fun ra mod h1 h2 => ?_, rfl⟩ <;>
    simp [lib_entry, h1, h2]

/-- A lookup table for the C4 witness: address 10 belongs to the executable
(base 4096), address 11 to a library based at 8192, everything else to no
module. -/
def c4Lookup : Nat → Option ModuleData := fun a =>
  if a = 10 then some ⟨4096, some "m"⟩
  else if a = 11 then some ⟨8192, none⟩
  else none

theorem C4_origin_filter_witness :
    (lib_entry true 4096 c4Lookup (some 10) "f" 99).length = 1 ∧
    (lib_entry true 4096 c4Lookup (some 11) "f" 99).length = 0 ∧
    (lib_entry true 4096 c4Lookup none "f" 99).length = 0 :=
  ⟨(C4_origin_filter 4096 c4Lookup "f" 99).1 10 ⟨4096, some "m"⟩ (by decide) rfl,
   (C4_origin_filter 4096 c4Lookup "f" 99).2.1 11 ⟨8192, none⟩ (by decide)
     (by decide),
   (C4_origin_filter 4096 c4Lookup "f" 99).2.2⟩

/-! ## Trace-line format (C6) -/

/-- Number of occurrences of the `!` separator in a string. -/
def bangCount (s : String) : Nat := s.data.count '!'

lemma bangCount_append (a b : String) :
    bangCount (a ++ b) = bangCount a + bangCount b := by
  simp [bangCount, String.data_append, List.count_append]

lemma bangCount_marker : bangCount stderrMarker = 0 := rfl

lemma bangCount_bang : bangCount "!" = 1 := rfl

lemma bangCount_newline : bangCount "\n" = 0 := rfl

/-- C6: when `lib_entry` finds a preferred name `m` for the target function's
module, the emitted line is the marker, `m`, one `!`, the function name and a
newline — and, names being `!`-free, it contains exactly one `!`; when no
module name is found, the line is the marker, the function name and a newline
with no `!` at all (the `!` and the module name are omitted together). -/
theorem C6_trace_line_format (lookup : Nat → Option ModuleData) (func : Nat)
    (name : String) :
    (∀ m, modnameOf lookup func = some m →
      traceLine lookup func name = stderrMarker ++ m ++ "!" ++ name ++ "\n" ∧
      (bangCount m = 0 → bangCount name = 0 →
        bangCount (traceLine lookup func name) = 1)) ∧
    (modnameOf lookup func = none →
      traceLine lookup func name = stderrMarker ++ name ++ "\n" ∧
      (bangCount name = 0 → bangCount (traceLine lookup func name) = 0)) := by
  constructor
  · intro m h
    have hline : traceLine lookup func name =
        stderrMarker ++ m ++ "!" ++ name ++ "\n" := by
      simp [traceLine, h]
    refine ⟨hline, fun h1 h2 => ?_⟩
    rw [hline]
    simp [bangCount_append, bangCount_marker, bangCount_bang, bangCount_newline,
      h1, h2]
  · intro h
    have hline : traceLine lookup func name = stderrMarker ++ name ++ "\n" := by
      simp [traceLine, h]
    refine ⟨hline, fun h1 => ?_⟩
    rw [hline]
    simp [bangCount_append, bangCount_marker, bangCount_newline, h1]

/-- A lookup for the C6 witness that resolves every address to a module named
"m". -/
def c6LookupA : Nat → Option ModuleData := fun _ => some ⟨0, some "m"⟩

/-- A lookup for the C6 witness that resolves no address. -/
def c6LookupB : Nat → Option ModuleData := fun _ => none

theorem C6_trace_line_format_witness :
    (traceLine c6LookupA 1 "f" = stderrMarker ++ "m" ++ "!" ++ "f" ++ "\n" ∧
     bangCount (traceLine c6LookupA 1 "f") = 1) ∧
    (traceLine c6LookupB 1 "f" = stderrMarker ++ "f" ++ "\n" ∧
     bangCount (traceLine c6LookupB 1 "f") = 0) :=
  ⟨⟨((C6_trace_line_format c6LookupA 1 "f").1 "m" rfl).1,
    ((C6_trace_line_format c6LookupA 1 "f").1 "m" rfl).2 (by decide) (by decide)⟩,
   ⟨((C6_trace_line_format c6LookupB 1 "f").2 rfl).1,
    ((C6_trace_line_format c6LookupB 1 "f").2 rfl).2 (by decide)⟩⟩

/-! ## Option parsing (C9) -/

/-- C9: any top-level option token other than `-logdir`, `-only_from_app` and
`-verbose` is a configuration error: it is reported on the diagnostic channel
(`NOTIFY(0, "UNRECOGNIZED OPTION: ...")` always prints, since `verbose ≥ 0`)
and fails `USAGE_CHECK(false, "invalid option")`, which is fatal in
strict/debug builds; parsing then continues with the remaining tokens. -/
theorem C9_unrecognized_token_is_error (t : String) (rest : List String)
    (st : OptState) (h1 : t ≠ "-logdir") (h2 : t ≠ "-only_from_app")
    (h3 : t ≠ "-verbose") :
    options_init (t :: rest) st =
      options_init rest
        { st with
          stderrLog := st.stderrLog ++ ["UNRECOGNIZED OPTION: \"" ++ t ++ "\"\n"],
          usageError := true } := by
  rw [options_init.eq_def]
  simp [h1, h2, h3, notify, usage_check, Nat.zero_le]

theorem C9_unrecognized_token_is_error_witness :
    options_init ["-bogus"] optStateInit =
      { optStateInit with
        stderrLog := ["UNRECOGNIZED OPTION: \"-bogus\"\n"],
        usageError := true } :=
  C9_unrecognized_token_is_error "-bogus" [] optStateInit (by decide) (by decide)
    (by decide)

/-! ## Export resolution and the hook lifecycle (C3, C7, C8) -/

lemma iterate_exports_append (indir : Nat → Option Nat) (l1 l2 : List SymbolExport)
    (add : Bool) : ∀ st, iterate_exports indir (l1 ++ l2) add st =
      ((iterate_exports indir l2 add (iterate_exports indir l1 add st).1).1,
       (iterate_exports indir l1 add st).2 ++
         (iterate_exports indir l2 add (iterate_exports indir l1 add st).1).2) := by
  induction l1 with
  | nil => intro st; simp [iterate_exports]
  | cons s rest ih =>
      intro st
      simp [iterate_exports, ih]

/-- The multiset of concrete addresses a resolution pass resolves (and hence
wraps on load / unwraps on unload): the non-NULL results of `resolveExport`,
in export-table order. -/
def resolvedFuncs (indir : Nat → Option Nat) : List SymbolExport → Multiset Nat
  | [] => 0
  | s :: rest =>
      if (resolveExport indir s).1 ≠ 0
      then (resolveExport indir s).1 ::ₘ resolvedFuncs indir rest
      else resolvedFuncs indir rest

lemma iterate_exports_add_state (indir : Nat → Option Nat)
    (syms : List SymbolExport) :
    ∀ st, (iterate_exports indir syms true st).1 =
      resolvedFuncs indir syms + st := by
  induction syms with
  | nil => intro st; simp [iterate_exports, resolvedFuncs]
  | cons s rest ih =>
      intro st
      by_cases h : (resolveExport indir s).1 = 0
      · simp [iterate_exports, processExport, resolvedFuncs, h, ih]
      · simp [iterate_exports, processExport, resolvedFuncs, h, ih,
          Multiset.cons_add, Multiset.add_cons]

lemma iterate_exports_remove_state (indir : Nat → Option Nat)
    (syms : List SymbolExport) :
    ∀ st, (iterate_exports indir syms false
      (resolvedFuncs indir syms + st)).1 = st := by
  induction syms with
  | nil => intro st; simp [iterate_exports, resolvedFuncs]
  | cons s rest ih =>
      intro st
      by_cases h : (resolveExport indir s).1 = 0
      · simp [iterate_exports, processExport, resolvedFuncs, h, ih]
      · simp [iterate_exports, processExport, resolvedFuncs, h,
          Multiset.cons_add, Multiset.erase_cons_head, ih]

/-- C3: during a hook-installation pass, an indirect-code export whose guarded
trampoline invocation faults contributes no hook — the pass records only the
attempted invocation, the hook table is exactly what the surrounding exports
produce, and the exports before and after it are processed normally from the
same states. -/
theorem C3_faulting_indirect_yields_no_hook (indir : Nat → Option Nat)
    (pre post : List SymbolExport) (s : SymbolExport) (st : Multiset Nat)
    (hc : s.is_code = false) (hi : s.is_indirect_code = true)
    (hf : indir s.addr = none) :
    iterate_exports indir (pre ++ s :: post) true st =
      ((iterate_exports indir post true (iterate_exports indir pre true st).1).1,
       (iterate_exports indir pre true st).2 ++
         Action.invoke s.addr ::
           (iterate_exports indir post true
             (iterate_exports indir pre true st).1).2) := by
  rw [iterate_exports_append]
  simp [iterate_exports, processExport, resolveExport, hc, hi, hf]

theorem C3_faulting_indirect_yields_no_hook_witness :
    iterate_exports (fun _ => none)
      ([⟨"a", 7, true, false⟩] ++ ⟨"bad", 9, false, true⟩ ::
        [⟨"b", 8, true, false⟩]) true 0 =
      ((iterate_exports (fun _ => none) [⟨"b", 8, true, false⟩] true
          (iterate_exports (fun _ => none) [⟨"a", 7, true, false⟩] true 0).1).1,
       (iterate_exports (fun _ => none) [⟨"a", 7, true, false⟩] true 0).2 ++
         Action.invoke 9 ::
           (iterate_exports (fun _ => none) [⟨"b", 8, true, false⟩] true
             (iterate_exports (fun _ => none) [⟨"a", 7, true, false⟩] true
               0).1).2) :=
  C3_faulting_indirect_yields_no_hook (fun _ => none) [⟨"a", 7, true, false⟩]
    [⟨"b", 8, true, false⟩] ⟨"bad", 9, false, true⟩ 0 rfl rfl rfl

/-- C8: an export marked neither as direct code nor as indirect code (a data
symbol) is skipped by a resolution pass: no trampoline invocation, no hook
install and no hook removal happen for it — the pass's state and requests are
exactly those of the surrounding exports. -/
theorem C8_data_symbol_skipped (indir : Nat → Option Nat) (add : Bool)
    (pre post : List SymbolExport) (s : SymbolExport) (st : Multiset Nat)
    (hc : s.is_code = false) (hi : s.is_indirect_code = false) :
    iterate_exports indir (pre ++ s :: post) add st =
      ((iterate_exports indir post add (iterate_exports indir pre add st).1).1,
       (iterate_exports indir pre add st).2 ++
         (iterate_exports indir post add
           (iterate_exports indir pre add st).1).2) := by
  rw [iterate_exports_append]
  simp [iterate_exports, processExport, resolveExport, hc, hi]

theorem C8_data_symbol_skipped_witness :
    iterate_exports (fun _ => none)
      ([⟨"a", 7, true, false⟩] ++ ⟨"datum", 9, false, false⟩ ::
        [⟨"b", 8, true, false⟩]) true 0 =
      ((iterate_exports (fun _ => none) [⟨"b", 8, true, false⟩] true
          (iterate_exports (fun _ => none) [⟨"a", 7, true, false⟩] true 0).1).1,
       (iterate_exports (fun _ => none) [⟨"a", 7, true, false⟩] true 0).2 ++
         (iterate_exports (fun _ => none) [⟨"b", 8, true, false⟩] true
           (iterate_exports (fun _ => none) [⟨"a", 7, true, false⟩] true
             0).1).2) :=
  C8_data_symbol_skipped (fun _ => none) true [⟨"a", 7, true, false⟩]
    [⟨"b", 8, true, false⟩] ⟨"datum", 9, false, false⟩ 0 rfl rfl

/-- C7: for a module whose base differs from the executable base, the event
sequence load, unload, load, unload returns the hook table to exactly its
state before the first load: no accumulated hooks and no residue. -/
theorem C7_load_unload_twice_identity (exe : Nat) (indir : Nat → Option Nat)
    (info : ModuleInfo) (st : Multiset Nat) (h : info.start ≠ exe) :
    (event_module_unload exe indir info
      (event_module_load exe indir info
        (event_module_unload exe indir info
          (event_module_load exe indir info st).1).1).1).1 = st := by
  have round : ∀ t : Multiset Nat,
      (event_module_unload exe indir info
        (event_module_load exe indir info t).1).1 = t := by
    intro t
    simp only [event_module_load, event_module_unload, if_pos h]
    rw [iterate_exports_add_state]
    exact iterate_exports_remove_state indir info.exports t
  rw [round, round]

/-- A non-executable module (base 8192 against executable base 4096) with one
direct-code export and one data export, for the C7 witness. -/
def c7Lib : ModuleInfo :=
  ⟨8192, some "lib", [⟨"a", 7, true, false⟩, ⟨"d", 9, false, false⟩]⟩

theorem C7_load_unload_twice_identity_witness :
    (event_module_unload 4096 (fun _ => none) c7Lib
      (event_module_load 4096 (fun _ => none) c7Lib
        (event_module_unload 4096 (fun _ => none) c7Lib
          (event_module_load 4096 (fun _ => none) c7Lib (5 ::ₘ 0)).1).1).1).1 =
      (5 ::ₘ 0) :=
  C7_load_unload_twice_identity 4096 (fun _ => none) c7Lib (5 ::ₘ 0) (by decide)

end Drltrace
